import Mathlib

/-!
Verification of the mlflow repository artifacts: the generated SVG icon
wrapper components (`PlusMinusSquareIcon.tsx` and the unnamed `FileIcon`
source), the GraphQL codegen configuration (`graphql-codegen.ts`) and the
documentation sidebar tree (`docs/sidebars.ts`).

The embedding is shallow: a JSX element becomes a record of tag, attribute
association list and children; the JSX spread `...props` after the literal
attributes becomes the JavaScript object-spread merge on association lists;
the sidebar objects become a tree datatype whose fields mirror the object
fields of `sidebars.ts` (an absent `items` field is modelled as `[]`, no
node in the source carries an explicit empty list); the codegen config
becomes a record transcribing `graphql-codegen.ts`.
-/

/-! ## SVG icon components -/

/-- A child element of the emitted svg (the `path` elements). -/
structure SvgNode where
  tag : String
  attrs : List (String × String)
  deriving DecidableEq

/-- The svg root element emitted by an icon component. -/
structure SvgElement where
  tag : String
  attrs : List (String × String)
  children : List SvgNode
  deriving DecidableEq

/-- First-match lookup in an attribute association list (JS object key read). -/
def attrLookup : List (String × String) → String → Option String
  | [], _ => none
  | (k, v) :: rest, key => if k = key then some v else attrLookup rest key

/-- Whether an attribute list carries a given key. -/
def hasKey (l : List (String × String)) (k : String) : Bool :=
  (attrLookup l k).isSome

/-- JavaScript object-spread semantics of `\x7b ...base, ...ext \x7d` (what JSX
`<svg a=... \x7b...props\x7d>` compiles to): the keys of `base` in their order
with values overridden by `ext` where present, then the keys of `ext`
absent from `base`, in their order. -/
def spreadAttrs (base ext : List (String × String)) : List (String × String) :=
  base.map (fun p =>
    match attrLookup ext p.1 with
    | some v => (p.1, v)
    | none => p) ++
  ext.filter (fun q => !hasKey base q.1)

/-- The literal attributes written on the svg root of both icon components:
`xmlns=... width="1em" height="1em" fill="none" viewBox="0 0 16 16"`. -/
def svgDefaultAttrs : List (String × String) :=
  [("xmlns", "http://www.w3.org/2000/svg"),
   ("width", "1em"),
   ("height", "1em"),
   ("fill", "none"),
   ("viewBox", "0 0 16 16")]

/-- The two fixed `path` children of `SvgPlusMinusSquareIcon`. -/
def plusMinusSquarePaths : List SvgNode :=
  [⟨"path",
    [("fill", "currentColor"),
     ("d", "M7.25 4.25V6H5.5v1.5h1.75v1.75h1.5V7.5h1.75V6H8.75V4.25zM10.5 10.5h-5V12h5z")]⟩,
   ⟨"path",
    [("fill", "currentColor"),
     ("fillRule", "evenodd"),
     ("d", "M1.75 1a.75.75 0 0 0-.75.75v12.5c0 .414.336.75.75.75h12.5a.75.75 0 0 0 .75-.75V1.75a.75.75 0 0 0-.75-.75zm.75 12.5v-11h11v11z"),
     ("clipRule", "evenodd")]⟩]

/-- `SvgPlusMinusSquareIcon(props)`: an svg root whose attributes are the
defaults spread-merged with the caller props, with the two fixed paths. -/
def SvgPlusMinusSquareIcon (props : List (String × String)) : SvgElement :=
  ⟨"svg", spreadAttrs svgDefaultAttrs props, plusMinusSquarePaths⟩

/-- The single fixed `path` child of `SvgFileIcon`. -/
def fileIconPaths : List SvgNode :=
  [⟨"path",
    [("fill", "currentColor"),
     ("fillRule", "evenodd"),
     ("d", "M2 1.75A.75.75 0 0 1 2.75 1h6a.75.75 0 0 1 .53.22l4.5 4.5c.141.14.22.331.22.53v9a.75.75 0 0 1-.75.75H2.75a.75.75 0 0 1-.75-.75zm1.5.75v12h9V7H8.75A.75.75 0 0 1 8 6.25V2.5zm6 1.06 1.94 1.94H9.5z"),
     ("clipRule", "evenodd")]⟩]

/-- `SvgFileIcon(props)`: an svg root whose attributes are the defaults
spread-merged with the caller props, with the single fixed path. -/
def SvgFileIcon (props : List (String × String)) : SvgElement :=
  ⟨"svg", spreadAttrs svgDefaultAttrs props, fileIconPaths⟩

/-! ### Lookup lemmas for the spread merge -/

theorem attrLookup_append (a b : List (String × String)) (k : String) :
    attrLookup (a ++ b) k = (attrLookup a k).orElse (fun _ => attrLookup b k) := by
  induction a with
  | nil => rfl
  | cons p rest ih =>
      obtain ⟨k₁, v₁⟩ := p
      by_cases h : k₁ = k
      · simp [attrLookup, h, Option.orElse]
      · simp [attrLookup, h, ih]

theorem attrLookup_map_update (base ext : List (String × String)) (k : String) :
    attrLookup
      (base.map (fun p =>
        match attrLookup ext p.1 with
        | some v => (p.1, v)
        | none => p)) k
    = (attrLookup base k).map (fun v => (attrLookup ext k).getD v) := by
  induction base with
  | nil => rfl
  | cons p rest ih =>
      obtain ⟨k₁, v₁⟩ := p
      by_cases h : k₁ = k
      · subst h
        cases hx : attrLookup ext k₁ <;> simp [attrLookup, hx]
      · cases hx : attrLookup ext k₁ <;> simp [attrLookup, hx, h, ih]

theorem attrLookup_filter_notkey (base ext : List (String × String)) (k : String) :
    attrLookup (ext.filter (fun q => !hasKey base q.1)) k
    = if hasKey base k then none else attrLookup ext k := by
  induction ext with
  | nil => simp [attrLookup]
  | cons q rest ih =>
      obtain ⟨k₁, v₁⟩ := q
      by_cases h : k₁ = k
      · subst h
        cases hb : hasKey base k₁ <;> simp [attrLookup, hb, ih]
      · cases hb : hasKey base k₁ <;> simp [attrLookup, hb, h, ih]

/-- The defining property of the JS object spread as seen through key lookup:
the extension wins where present, the base answers otherwise. -/
theorem attrLookup_spreadAttrs (base ext : List (String × String)) (k : String) :
    attrLookup (spreadAttrs base ext) k
    = (attrLookup ext k).orElse (fun _ => attrLookup base k) := by
  unfold spreadAttrs
  rw [attrLookup_append, attrLookup_map_update, attrLookup_filter_notkey]
  cases hb : attrLookup base k <;> cases hx : attrLookup ext k <;>
    simp [hasKey, hb, hx, Option.orElse]

/-! ## Sidebar tree (`docs/sidebars.ts`) -/

/-- A `link:` field of a category node: in the source always an object
`\x7b type: 'doc', id: ... \x7d`; the `type` field is kept so that
well-formedness of the link is a real check. -/
structure DocRef where
  ty : String
  id : String
  deriving DecidableEq

/-- An `href` value of a link node: either a string literal, or the template
literal interpolating the `apiReferencePrefix()` call from
`docusaurusConfigUtils` in front of a fixed suffix, exactly as written in
`sidebars.ts` for the five API-reference links. -/
inductive HrefExpr : Type where
  | lit (s : String)
  | apiRefCall (suffix : String)
  deriving DecidableEq

/-- Whether an `href` value is a plain string literal. -/
def HrefExpr.isLit : HrefExpr → Bool
  | .lit _ => true
  | .apiRefCall _ => false

/-- A sidebar node, fields in the order `type`, `id`, `label`, `className`,
`collapsed`, `items`, `link`, `href`, `dirName`; a field absent from the
source object is `none` (`items` absent is `[]`). -/
inductive SItem : Type where
  | mk (ty : String) (id : Option String) (label : Option String)
       (className : Option String) (collapsed : Option Bool)
       (items : List SItem) (link : Option DocRef)
       (href : Option HrefExpr) (dirName : Option String) : SItem

def SItem.ty : SItem → String
  | .mk t _ _ _ _ _ _ _ _ => t

def SItem.docId : SItem → Option String
  | .mk _ i _ _ _ _ _ _ _ => i

def SItem.label : SItem → Option String
  | .mk _ _ l _ _ _ _ _ _ => l

def SItem.className : SItem → Option String
  | .mk _ _ _ c _ _ _ _ _ => c

def SItem.collapsed : SItem → Option Bool
  | .mk _ _ _ _ c _ _ _ _ => c

def SItem.items : SItem → List SItem
  | .mk _ _ _ _ _ its _ _ _ => its

def SItem.link : SItem → Option DocRef
  | .mk _ _ _ _ _ _ lk _ _ => lk

def SItem.href : SItem → Option HrefExpr
  | .mk _ _ _ _ _ _ _ h _ => h

def SItem.dirName : SItem → Option String
  | .mk _ _ _ _ _ _ _ _ d => d

/-- `\x7b type: 'doc', id \x7d` -/
def jdoc (i : String) : SItem :=
  .mk "doc" (some i) none none none [] none none none

/-- `\x7b type: 'doc', id, label \x7d` -/
def jdocL (i lbl : String) : SItem :=
  .mk "doc" (some i) (some lbl) none none [] none none none

/-- `\x7b type: 'doc', id, className \x7d` -/
def jdocCN (i cn : String) : SItem :=
  .mk "doc" (some i) none (some cn) none [] none none none

/-- `\x7b type: 'autogenerated', dirName \x7d` -/
def jauto (d : String) : SItem :=
  .mk "autogenerated" none none none none [] none none (some d)

/-- `\x7b type: 'link', label, href \x7d` -/
def jlink (lbl : String) (h : HrefExpr) : SItem :=
  .mk "link" none (some lbl) none none [] none (some h) none

/-- `\x7b type: 'category', label, items \x7d` -/
def jcat (lbl : String) (its : List SItem) : SItem :=
  .mk "category" none (some lbl) none none its none none none

/-- `\x7b type: 'category', label, items, link \x7d` -/
def jcatL (lbl : String) (its : List SItem) (lk : DocRef) : SItem :=
  .mk "category" none (some lbl) none none its (some lk) none none

/-- `\x7b type: 'category', label, className, items, link \x7d` -/
def jcatCNL (lbl cn : String) (its : List SItem) (lk : DocRef) : SItem :=
  .mk "category" none (some lbl) (some cn) none its (some lk) none none

/-- `\x7b type: 'category', label, className, collapsed, items \x7d` -/
def jcatCNC (lbl cn : String) (c : Bool) (its : List SItem) : SItem :=
  .mk "category" none (some lbl) (some cn) (some c) its none none none

/-- The `docsSidebar` entry of the `sidebars` constant, transcribed in
source order from `docs/sidebars.ts`. -/
def docsSidebar : List SItem :=
  [jdocCN "index" "sidebar-top-level-category",
   jcatCNL "Getting Started" "sidebar-top-level-category"
     [jdocL "getting-started/intro-quickstart/index" "Quickstart",
      jdoc "getting-started/running-notebooks/index",
      jdoc "getting-started/databricks-trial/index",
      jcat "More Tutorials"
        [jdocL "getting-started/quickstart-2/index" "Hyperparameter Tuning Tutorial",
         jcat "Model Registry Tutorial"
           [jauto "getting-started/registering-first-model"],
         jdoc "getting-started/tracking-server-overview/index"]]
     ⟨"doc", "getting-started/index"⟩,
   jcatCNC "Machine Learning 🧠" "sidebar-top-level-category" false
     [jcatL "LLM / GenAI"
        [jdocL "llms/index" "Overview",
         jcat "Integrations"
           [jcatL "OpenAI" [jauto "llms/openai"] ⟨"doc", "llms/openai/index"⟩,
            jcatL "LangChain" [jauto "llms/langchain"] ⟨"doc", "llms/langchain/index"⟩,
            jdocL "llms/dspy/index" "DSPy",
            jdocL "llms/llama-index/index" "LlamaIndex",
            jcatL "Transformers" [jauto "llms/transformers"] ⟨"doc", "llms/transformers/index"⟩,
            jcatL "Sentence Transformers" [jauto "llms/sentence-transformers"]
              ⟨"doc", "llms/sentence-transformers/index"⟩,
            jlink "More" (.lit "/tracing/integrations/")],
         jlink "Tracing (Observability)" (.lit "/tracing/"),
         jcatL "Evaluation" [jauto "llms/llm-evaluate"] ⟨"doc", "llms/llm-evaluate/index"⟩,
         jcat "ChatModel"
           [jdocL "llms/chat-model-intro/index" "What is ChatModel?",
            jdocL "llms/chat-model-guide/index" "Advanced Guide",
            jdocL "llms/custom-pyfunc-for-llms/index" "More Customization"],
         jcat "RAG"
           [jdocL "llms/rag/index" "What is RAG?",
            jdoc "llms/rag/notebooks/index"],
         jdocL "llms/prompt-engineering/index" "Prompt Engineering"]
        ⟨"doc", "llms/index"⟩,
      jcatL "Deep Learning" [jauto "deep-learning"] ⟨"doc", "deep-learning/index"⟩,
      jcatL "Traditional ML" [jauto "traditional-ml"] ⟨"doc", "traditional-ml/index"⟩],
   jcatCNC "Build 🔨 " "sidebar-top-level-category" false
     [jcatL "MLflow Tracking"
        [jdoc "tracking/index",
         jlink "Quickstart" (.lit "/getting-started/intro-quickstart/"),
         jdoc "tracking/autolog/index",
         jcatL "Tracking Server"
           [jdoc "tracking/artifacts-stores/index",
            jdoc "tracking/backend-stores/index",
            jcat "Tutorials" [jauto "tracking/tutorials"]]
           ⟨"doc", "tracking/server/index"⟩,
         jcat "Searching Runs & Experiments"
           [jdoc "search-runs/index",
            jdoc "search-experiments/index"],
         jdoc "system-metrics/index"]
        ⟨"doc", "tracking/index"⟩,
      jcat "MLflow Model" [jauto "model"],
      jdoc "recipes/index"],
   jcatCNC "Evaluate & Monitor 📊" "sidebar-top-level-category" false
     [jdocL "model-evaluation/index" "MLflow Evaluation",
      jcatL "MLflow Tracing (Observability)" [jauto "tracing"] ⟨"doc", "tracing/index"⟩,
      jdocL "dataset/index" "MLflow Dataset"],
   jcatCNC "Deploy 🚀" "sidebar-top-level-category" false
     [jdoc "model-registry/index",
      jcat "MLflow Serving" [jauto "deployment"],
      jcatL "MLflow AI Gateway" [jauto "llms/deployments"] ⟨"doc", "llms/deployments/index"⟩],
   jcatCNC "Team Collaboration 👥" "sidebar-top-level-category" true
     [jlink "Self-Hosting" (.lit "/tracking/#tracking-setup"),
      jlink "Managed Services" (.lit "/#running-mlflow-anywhere"),
      jdocL "auth/index" "Access Control",
      jdocL "projects/index" "MLflow Projects"],
   jcatCNC "API References" "sidebar-top-level-category" true
     [jlink "Python API" (.apiRefCall "api_reference/python_api/index.html"),
      jlink "Java API" (.apiRefCall "api_reference/java_api/index.html"),
      jlink "R API" (.apiRefCall "api_reference/R-api.html"),
      jlink "REST API" (.apiRefCall "api_reference/rest-api.html"),
      jlink "CLI" (.apiRefCall "cli.html")],
   jcatCNC "More" "sidebar-top-level-category" true
     [jlink "Contributing" (.lit "https://github.com/mlflow/mlflow/blob/master/CONTRIBUTING.md"),
      jlink "MLflow Blogs" (.lit "https://mlflow.org/blog/index.html"),
      jdoc "plugins/index"]]

/-- The exported `sidebars` constant: a single `docsSidebar` key. -/
def sidebars : List (String × List SItem) :=
  [("docsSidebar", docsSidebar)]

/-! ### Traversals of the sidebar tree -/

mutual

/-- All document ids referenced by a node and its descendants: the `id` of a
doc node and the `id` inside a category `link:` field, in source order. -/
def collectDocIds : SItem → List String
  | .mk _ i _ _ _ its lk _ _ =>
    (match i with | some s => [s] | none => []) ++
    (match lk with | some r => [r.id] | none => []) ++
    collectDocIdsList its

def collectDocIdsList : List SItem → List String
  | [] => []
  | x :: xs => collectDocIds x ++ collectDocIdsList xs

end

mutual

/-- Only the ids of `type: 'doc'` item nodes, in source order. -/
def collectItemDocIds : SItem → List String
  | .mk ty i _ _ _ its _ _ _ =>
    (match i with | some s => if ty = "doc" then [s] else [] | none => []) ++
    collectItemDocIdsList its

def collectItemDocIdsList : List SItem → List String
  | [] => []
  | x :: xs => collectItemDocIds x ++ collectItemDocIdsList xs

end

mutual

/-- Only the ids referenced by category `link:` fields, in source order. -/
def collectLinkDocIds : SItem → List String
  | .mk _ _ _ _ _ its lk _ _ =>
    (match lk with | some r => [r.id] | none => []) ++
    collectLinkDocIdsList its

def collectLinkDocIdsList : List SItem → List String
  | [] => []
  | x :: xs => collectLinkDocIds x ++ collectLinkDocIdsList xs

end

mutual

/-- The `type` discriminator strings of every node of the tree. -/
def collectTys : SItem → List String
  | .mk ty _ _ _ _ its _ _ _ => ty :: collectTysList its

def collectTysList : List SItem → List String
  | [] => []
  | x :: xs => collectTys x ++ collectTysList xs

end

mutual

/-- Every `href` value occurring in the tree, in source order. -/
def collectHrefs : SItem → List HrefExpr
  | .mk _ _ _ _ _ its _ h _ =>
    (match h with | some e => [e] | none => []) ++ collectHrefsList its

def collectHrefsList : List SItem → List HrefExpr
  | [] => []
  | x :: xs => collectHrefs x ++ collectHrefsList xs

end

mutual

/-- Kind-specific well-formedness of a node and its descendants: a doc has an
id; a category has a label, a non-empty items list, and any `link:` field is
a doc reference; a link has an href and a label; an autogenerated node has a
dirName. -/
def wfItem : SItem → Bool
  | .mk ty i lbl _ _ its lk h d =>
    (if ty = "doc" then i.isSome else true) &&
    (if ty = "category" then
      lbl.isSome && !its.isEmpty &&
      (match lk with | some r => r.ty = "doc" | none => true)
     else true) &&
    (if ty = "link" then h.isSome && lbl.isSome else true) &&
    (if ty = "autogenerated" then d.isSome else true) &&
    wfList its

def wfList : List SItem → Bool
  | [] => true
  | x :: xs => wfItem x && wfList xs

end

/-- The head a top-level entry shows in the sidebar: the doc id for a doc
node, the label otherwise. -/
def headOf (x : SItem) : String :=
  if x.ty = "doc" then (x.docId).getD "" else (x.label).getD ""

/-! ## GraphQL codegen configuration (`graphql-codegen.ts`) -/

/-- One output target of the `generates` map: its path key and plugin list. -/
structure GeneratesTarget where
  path : String
  plugins : List String
  deriving DecidableEq

/-- The inner `config` block of the codegen configuration. -/
structure CodegenInnerConfig where
  avoidOptionalsField : Bool
  enumValuesNaming : String
  nonOptionalTypename : Bool
  omitOperationSuffix : Bool
  onlyOperationTypes : Bool
  scalars : List (String × String)
  skipTypeNameForRoot : Bool
  strictScalars : Bool
  deriving DecidableEq

/-- The `CodegenConfig` object shape used by `graphql-codegen.ts`. -/
structure CodegenConfig where
  schema : List String
  documents : List String
  config : CodegenInnerConfig
  generates : List GeneratesTarget
  deriving DecidableEq

/-- The default export of `graphql-codegen.ts`, transcribed field by field. -/
def config : CodegenConfig :=
  ⟨["./src/graphql/autogenerated_schema.gql"],
   ["src/**/!(*.test).js*", "src/**/!(*.test).ts*"],
   ⟨true,
    "change-case-all#constantCase",
    true,
    true,
    true,
    [("GraphQLAnyValue", "any"),
     ("Long", "number"),
     ("LongString", "string"),
     ("StringMap", "Record<string, string>"),
     ("JSON", "any"),
     ("WellKnownFieldMask", "any"),
     ("WellKnownTimestamp", "any"),
     ("WellKnownDuration", "any")],
    true,
    true⟩,
   [⟨"src/graphql/__generated__/graphql.ts",
     ["graphql-codegen-typescript-operation-types", "typescript-operations"]⟩]⟩

/-! ## Claims -/

/-- Claim C1: attribute pass-through of the icon renderers is transparent.
For every caller-supplied attribute map, every attribute visible on the svg
root emitted by `SvgPlusMinusSquareIcon` and by `SvgFileIcon` is the
caller's value whenever the caller supplies that name (so no caller
attribute is dropped), and the default value (`xmlns`, `width "1em"`,
`height "1em"`, `fill "none"`, `viewBox "0 0 16 16"`) otherwise. -/
theorem c1_icon_attribute_passthrough (props : List (String × String)) (k : String) :
    attrLookup (SvgPlusMinusSquareIcon props).attrs k
      = (attrLookup props k).orElse (fun _ => attrLookup svgDefaultAttrs k)
  ∧ attrLookup (SvgFileIcon props).attrs k
      = (attrLookup props k).orElse (fun _ => attrLookup svgDefaultAttrs k) :=
  ⟨attrLookup_spreadAttrs svgDefaultAttrs props k,
   attrLookup_spreadAttrs svgDefaultAttrs props k⟩

/-- Claim C2, counterexample: the sidebar tree does contain duplicate
document ids — the collected list of document ids (doc items together with
the doc references of category `link:` fields) is not duplicate-free:
`llms/index` is both a doc item and a category link reference, as is
`tracking/index`. -/
theorem c2_duplicate_doc_ids_counterexample :
    ¬ (collectDocIdsList docsSidebar).Nodup := by decide

/-- Claim C2, amended: within each kind the ids are pairwise distinct — the
ids of doc items are duplicate-free, and the ids referenced by category
`link:` fields are duplicate-free — and the only ids shared between the two
kinds are `llms/index` and `tracking/index`, each occurring exactly twice in
the combined collection. -/
theorem c2_amended_ids_distinct_within_kinds :
    (collectItemDocIdsList docsSidebar).Nodup
  ∧ (collectLinkDocIdsList docsSidebar).Nodup
  ∧ ((collectDocIdsList docsSidebar).filter
      (fun s => (collectDocIdsList docsSidebar).count s > 1))
      = ["llms/index", "llms/index", "tracking/index", "tracking/index"] := by
  refine ⟨by decide, by decide, by decide⟩

/-- Claim C3, counterexample: not every field of every node of the exported
tree is a literal — the `href` of the Python API link (and of the four other
API-reference links) is the template literal interpolating the
`apiReferencePrefix()` call, so it depends on a computation performed when
the module is evaluated. -/
theorem c3_nonliteral_href_counterexample :
    ((collectHrefsList docsSidebar).all HrefExpr.isLit) = false
  ∧ (HrefExpr.apiRefCall "api_reference/python_api/index.html")
      ∈ collectHrefsList docsSidebar := by
  refine ⟨by decide, by decide⟩

/-- Claim C3, amended: the exported tree is a fixed constant and every field
of every node is a literal except the `href` of the five API-reference
links, which are computed at module evaluation as `apiReferencePrefix()`
followed by a fixed literal suffix; these five are exactly the non-literal
hrefs of the tree. -/
theorem c3_amended_static_except_api_hrefs :
    ((collectHrefsList docsSidebar).filter (fun h => !h.isLit))
      = [.apiRefCall "api_reference/python_api/index.html",
         .apiRefCall "api_reference/java_api/index.html",
         .apiRefCall "api_reference/R-api.html",
         .apiRefCall "api_reference/rest-api.html",
         .apiRefCall "cli.html"] := by decide

/-- Claim C4: the codegen configuration is fully resolved — its schema list
is exactly the one schema file, its documents list exactly the two glob
patterns, and its generates map exactly the one output target with its two
plugins. -/
theorem c4_codegen_static_shape :
    config.schema = ["./src/graphql/autogenerated_schema.gql"]
  ∧ config.documents = ["src/**/!(*.test).js*", "src/**/!(*.test).ts*"]
  ∧ config.generates
      = [⟨"src/graphql/__generated__/graphql.ts",
          ["graphql-codegen-typescript-operation-types", "typescript-operations"]⟩] :=
  ⟨rfl, rfl, rfl⟩

/-- Claim C5: the scalar mapping of the codegen configuration is exactly the
eight-entry map given in the source, and `strictScalars` is set. -/
theorem c5_codegen_scalars :
    config.config.scalars
      = [("GraphQLAnyValue", "any"),
         ("Long", "number"),
         ("LongString", "string"),
         ("StringMap", "Record<string, string>"),
         ("JSON", "any"),
         ("WellKnownFieldMask", "any"),
         ("WellKnownTimestamp", "any"),
         ("WellKnownDuration", "any")]
  ∧ config.config.strictScalars = true :=
  ⟨rfl, rfl⟩

/-- Claim C6: the top level of the sidebar tree is, in order, the index doc
followed by the eight authored categories. (The deeper levels are the
authored lists by definition of `docsSidebar`.) -/
theorem c6_top_level_order :
    docsSidebar.map (fun x => (x.ty, headOf x))
      = [("doc", "index"),
         ("category", "Getting Started"),
         ("category", "Machine Learning 🧠"),
         ("category", "Build 🔨 "),
         ("category", "Evaluate & Monitor 📊"),
         ("category", "Deploy 🚀"),
         ("category", "Team Collaboration 👥"),
         ("category", "API References"),
         ("category", "More")] := by decide

/-- Claim C7: every node of the sidebar tree, at every nesting level, has a
`type` equal to one of `doc`, `category`, `link`, `autogenerated`. -/
theorem c7_node_kinds :
    ∀ t ∈ collectTysList docsSidebar,
      t = "doc" ∨ t = "category" ∨ t = "link" ∨ t = "autogenerated" := by decide

/-- Claim C7, witness: the theorem applied to the first collected type of the
tree. -/
theorem c7_node_kinds_witness :
    "doc" = "doc" ∨ "doc" = "category" ∨ "doc" = "link" ∨ "doc" = "autogenerated" :=
  c7_node_kinds "doc" (by decide)

/-- Claim C8: the fixed path data of an icon is never altered by caller
input — for every caller-supplied attribute map, the path children of
`SvgPlusMinusSquareIcon` (two paths) and `SvgFileIcon` (one path) are those
emitted with no caller attributes, namely the fixed path lists. -/
theorem c8_fixed_path_data (props : List (String × String)) :
    (SvgPlusMinusSquareIcon props).children = (SvgPlusMinusSquareIcon []).children
  ∧ (SvgFileIcon props).children = (SvgFileIcon []).children
  ∧ (SvgPlusMinusSquareIcon props).children = plusMinusSquarePaths
  ∧ (SvgFileIcon props).children = fileIconPaths
  ∧ plusMinusSquarePaths.length = 2
  ∧ fileIconPaths.length = 1 :=
  ⟨rfl, rfl, rfl, rfl, rfl, rfl⟩

/-- Claim C9: icon rendering is deterministic and a pure function of its
argument — two invocations with equal props emit equal markup, and the
output is completely determined by the props (the svg root with the merged
attributes and the fixed children), so the invocation reads no state
outside its argument. -/
theorem c9_icon_rendering_deterministic (p q : List (String × String)) (h : p = q) :
    SvgPlusMinusSquareIcon p = SvgPlusMinusSquareIcon q
  ∧ SvgFileIcon p = SvgFileIcon q
  ∧ SvgPlusMinusSquareIcon p = ⟨"svg", spreadAttrs svgDefaultAttrs p, plusMinusSquarePaths⟩
  ∧ SvgFileIcon p = ⟨"svg", spreadAttrs svgDefaultAttrs p, fileIconPaths⟩ := by
  subst h
  exact ⟨rfl, rfl, rfl, rfl⟩

/-- Claim C9, witness: the theorem applied to two equal concrete prop
lists. -/
theorem c9_icon_rendering_deterministic_witness :
    SvgPlusMinusSquareIcon [("fill", "red")] = SvgPlusMinusSquareIcon [("fill", "red")]
  ∧ SvgFileIcon [("fill", "red")] = SvgFileIcon [("fill", "red")]
  ∧ SvgPlusMinusSquareIcon [("fill", "red")]
      = ⟨"svg", spreadAttrs svgDefaultAttrs [("fill", "red")], plusMinusSquarePaths⟩
  ∧ SvgFileIcon [("fill", "red")]
      = ⟨"svg", spreadAttrs svgDefaultAttrs [("fill", "red")], fileIconPaths⟩ :=
  c9_icon_rendering_deterministic [("fill", "red")] [("fill", "red")] rfl

/-- Claim C10: every node of the sidebar tree is well-formed for its kind —
docs have an id, categories have a label, a non-empty items list and only
doc references in their `link:` field, links have an href and a label, and
autogenerated nodes have a dirName. -/
theorem c10_nodes_wellformed : wfList docsSidebar = true := by decide
